import Mathlib

/-!
Shallow embedding of the karaoke request frontend's session/auth layer
(`src/utils/auth.ts`, the `AuthProvider` context) and of its HTTP
request/response normalization layer (`handleRequest`, `createApiError`,
`getAuthHeaders` and the authenticated endpoint wrappers).

JavaScript truthiness is modelled explicitly: a string is truthy iff it is
non-empty, a number is truthy iff it is non-zero, `null`/`undefined` are
falsy, and any object is truthy.  Missing object fields are `Option`s.
-/

/-- JS truthiness of a possibly-absent string (`undefined`/`null` and `""`
are falsy). -/
def truthyStr : Option String → Bool
  | some s => s ≠ ""
  | none => false

/-- JS truthiness of a possibly-absent number (`undefined`/`null` and `0`
are falsy). -/
def truthyNum : Option Int → Bool
  | some n => n ≠ 0
  | none => false

/-- JS `a || b` on a possibly-absent string: returns `a` when truthy, else
the fallback. -/
def jsOr (a : Option String) (fallback : String) : String :=
  match a with
  | some s => if s = "" then fallback else s
  | none => fallback

/-- JS `a || b` on two plain strings (`""` is falsy). -/
def jsOrStr (a b : String) : String :=
  if a = "" then b else a

/-- The shape of the user record as persisted and parsed by the client
(`User` in `types.ts`); every field is optional because a stored JSON
object may lack any of them. -/
structure UserObj where
  id : Option Int
  patronId : Option Int
  first_name : Option String
  last_name : Option String
  email : Option String
  mobile_number : Option String
deriving DecidableEq, Repr

/-- What the text stored under the user key parses to:
a JSON object read back as a `UserObj`, some other JSON value
(`null`, a primitive or an array — parses, but fails the
`user && typeof user === 'object'` check), or malformed text on which
`JSON.parse` throws. -/
inductive StoredText
  | userJson (u : UserObj)
  | otherJson
  | malformed (raw : String)
deriving DecidableEq, Repr

/-- The browser `localStorage` as seen through the two session keys
(`authToken`, `authUser`), together with failure switches modelling an
underlying storage layer that throws on access (quota exceeded, access
denied, …). -/
structure Storage where
  tokenSlot : Option String
  userSlot : Option StoredText
  getFails : Bool
  setFails : Bool
  removeFails : Bool
deriving DecidableEq, Repr

/-- Raw `localStorage.getItem(TOKEN_KEY)`: throws when the underlying
storage fails. -/
def rawGetToken (s : Storage) : Except Unit (Option String) :=
  if s.getFails then .error () else .ok s.tokenSlot

/-- Raw `localStorage.setItem(TOKEN_KEY, token)`. -/
def rawSetToken (s : Storage) (token : String) : Except Unit Storage :=
  if s.setFails then .error () else .ok { s with tokenSlot := some token }

/-- Raw `localStorage.removeItem(TOKEN_KEY)`. -/
def rawRemoveToken (s : Storage) : Except Unit Storage :=
  if s.removeFails then .error () else .ok { s with tokenSlot := none }

/-- Raw `localStorage.getItem(USER_KEY)`. -/
def rawGetUser (s : Storage) : Except Unit (Option StoredText) :=
  if s.getFails then .error () else .ok s.userSlot

/-- Raw `localStorage.setItem(USER_KEY, JSON.stringify(user))`. -/
def rawSetUser (s : Storage) (e : StoredText) : Except Unit Storage :=
  if s.setFails then .error () else .ok { s with userSlot := some e }

/-- Raw `localStorage.removeItem(USER_KEY)`. -/
def rawRemoveUser (s : Storage) : Except Unit Storage :=
  if s.removeFails then .error () else .ok { s with userSlot := none }

/-- `setAuthToken` of `auth.ts`: stores the token, swallowing any storage
error. -/
def setAuthToken (s : Storage) (token : String) : Storage :=
  match rawSetToken s token with
  | .ok s' => s'
  | .error _ => s

/-- `getAuthToken` of `auth.ts`: reads the token, returning `null` on any
storage error. -/
def getAuthToken (s : Storage) : Option String :=
  match rawGetToken s with
  | .ok v => v
  | .error _ => none

/-- `removeAuthToken` of `auth.ts`: removes the token, swallowing any
storage error. -/
def removeAuthToken (s : Storage) : Storage :=
  match rawRemoveToken s with
  | .ok s' => s'
  | .error _ => s

/-- `removeUserFromStorage` of `auth.ts`. -/
def removeUserFromStorage (s : Storage) : Storage :=
  match rawRemoveUser s with
  | .ok s' => s'
  | .error _ => s

/-- `setUserInStorage` of `auth.ts`: serializes the user object and stores
it, swallowing any storage error. -/
def setUserInStorage (s : Storage) (u : UserObj) : Storage :=
  match rawSetUser s (.userJson u) with
  | .ok s' => s'
  | .error _ => s

/-- `getUserFromStorage` of `auth.ts`: reads and parses the stored user.
The validity check is `user && typeof user === 'object' && user.email`;
on parse failure, on a non-object value, or on a falsy `email`, the entry
is removed (self-healing) and `null` is returned.  A storage read that
throws is caught, the entry is removed, and `null` is returned. -/
def getUserFromStorage (s : Storage) : Option UserObj × Storage :=
  match rawGetUser s with
  | .error _ => (none, removeUserFromStorage s)
  | .ok none => (none, s)
  | .ok (some (.malformed _)) => (none, removeUserFromStorage s)
  | .ok (some .otherJson) => (none, removeUserFromStorage s)
  | .ok (some (.userJson u)) =>
      if truthyStr u.email then (some u, s)
      else (none, removeUserFromStorage s)

/-- Whether a stored user entry fails `getUserFromStorage`'s own check
(malformed, non-object, or falsy `email`), so that reading it triggers the
self-healing removal. -/
def entryInvalid : StoredText → Bool
  | .userJson u => ! truthyStr u.email
  | .otherJson => true
  | .malformed _ => true

/-- The validity predicate of the spec's §3, following the spec's words:
a profile is valid only if it carries a non-empty unique identifier and an
email.  Kept separate from the code's own checks so the two can be
compared. -/
def specValidProfile (u : UserObj) : Bool :=
  truthyNum u.id && truthyStr u.email

/-- The in-memory auth state held by `AuthProvider` (`token` and `user`
React state). -/
structure AuthState where
  token : Option String
  user : Option UserObj
deriving DecidableEq, Repr

/-- The `AuthProvider` initialization effect: read token and user from
storage; if both are truthy and the user passes
`storedUser.id && storedUser.email && storedUser.patronId`, enter the
authenticated state; if the user record fails that check, clear both
storage keys; otherwise only reset the in-memory state. -/
def initializeAuth (s : Storage) : AuthState × Storage :=
  let storedToken := getAuthToken s
  match getUserFromStorage s with
  | (some u, s1) =>
      if truthyStr storedToken then
        if truthyNum u.id && truthyStr u.email && truthyNum u.patronId then
          ({ token := storedToken, user := some u }, s1)
        else
          ({ token := none, user := none },
            removeUserFromStorage (removeAuthToken s1))
      else
        ({ token := none, user := none }, s1)
  | (none, s1) => ({ token := none, user := none }, s1)

/-- The `login` transition of `AuthContext`: write-through of token and
user to storage (each swallowing its own storage errors), then update the
in-memory state.  The navigation side effect is out of scope. -/
def login (s : Storage) (newToken : String) (u : UserObj) :
    AuthState × Storage :=
  let s1 := setAuthToken s newToken
  let s2 := setUserInStorage s1 u
  ({ token := some newToken, user := some u }, s2)

/-- The `logout` transition of `AuthContext`: clear both storage keys and
reset the in-memory state. -/
def logout (s : Storage) : AuthState × Storage :=
  let s1 := removeAuthToken s
  let s2 := removeUserFromStorage s1
  ({ token := none, user := none }, s2)

/-- `isAuthenticated = !!token && !!user` of `AuthContext`: the token is
truthy (non-null and non-empty) and the user object is non-null. -/
def isAuthenticated (st : AuthState) : Bool :=
  truthyStr st.token && st.user.isSome

/-! ## The request/response normalization layer (`handleRequest`) -/

/-- The JSON object fields `handleRequest` inspects on a parsed body.
`error` models only boolean values: `responseData.error === true` holds
exactly for `some true`.  `details` stands for the opaque details value. -/
structure JsonObj where
  error : Option Bool
  errorString : Option String
  message : Option String
  details : Option String
deriving DecidableEq, Repr

/-- A parsed JSON value as `handleRequest` distinguishes them: an object
(with the fields above), the literal `null` (on which a property access
throws a `TypeError`), or any other value (primitive or array, on which a
property access yields `undefined`). -/
inductive JsonVal
  | obj (j : JsonObj)
  | null
  | nonObj
deriving DecidableEq, Repr

/-- The response body as received: text that parses as JSON, or text on
which `JSON.parse` throws. -/
inductive BodyVal
  | parsed (v : JsonVal)
  | unparsable (raw : String)
deriving DecidableEq, Repr

/-- A transport outcome: `fetch` rejected before any response (with the
rejection's `message` and optional `stack`), or a response arrived with a
status, a status text and a body. -/
inductive Outcome
  | networkFailure (msg : String) (stack : Option String)
  | response (status : Nat) (statusText : String) (body : BodyVal)
deriving DecidableEq, Repr

/-- The canonical API error shape built by `createApiError` (the
`isApiError` marker is implicit in the type). `apiResponse` carries the
raw parsed body when one exists. -/
structure ApiError where
  message : String
  error : Bool
  errorString : String
  status : Option Nat
  details : Option String
  apiResponse : Option JsonVal
deriving DecidableEq, Repr

/-- `createApiError` of the source: message, `error: true`,
`errorString = message`, plus optional status, details and raw response
data. -/
def createApiError (message : String) (status : Option Nat)
    (details : Option String) (responseData : Option JsonVal) : ApiError :=
  { message := message
    error := true
    errorString := message
    status := status
    details := details
    apiResponse := responseData }

/-- A successful payload of `handleRequest`: the empty object returned for
204, a parsed JSON body returned verbatim, or passthrough raw text for a
2xx non-JSON body. -/
inductive Payload
  | emptyObj
  | data (v : JsonVal)
  | text (raw : String)
deriving DecidableEq, Repr

/-- `response.ok` of the Fetch API: status in 200..299. -/
def isOkStatus (status : Nat) : Bool :=
  200 ≤ status && status ≤ 299

/-- The message of the `TypeError` raised when `responseData.error` is
read off a parsed `null` body; it is caught by the outer catch and
wrapped. -/
def nullAccessMsg : String :=
  "Cannot read properties of null (reading 'error')"

/-- `handleRequest` of the source as a function from the transport outcome
to either a payload or a canonical API error.  Mirrors, in order: the 204
short-circuit, the JSON-parse attempt with its non-OK/OK split, the
`error === true` check, the non-OK fallback on parsed bodies, the success
return, and the outer catch that rethrows `ApiError`s and wraps anything
else. -/
def handleRequest : Outcome → Except ApiError Payload
  | .networkFailure msg stack =>
      .error (createApiError
        (jsOrStr msg "An unexpected network or processing error occurred.")
        none stack none)
  | .response status statusText body =>
      if status = 204 then .ok .emptyObj
      else
        match body with
        | .unparsable raw =>
            if isOkStatus status then .ok (.text raw)
            else
              .error (createApiError
                ("Request failed: " ++ toString status ++ " "
                  ++ jsOrStr statusText raw)
                (some status) none none)
        | .parsed .null =>
            .error (createApiError nullAccessMsg none
              (some "TypeError stack") none)
        | .parsed (.obj j) =>
            if j.error = some true then
              .error (createApiError
                (jsOr j.errorString ("API Error: " ++ toString status))
                (some status) j.details (some (.obj j)))
            else if isOkStatus status then .ok (.data (.obj j))
            else
              .error (createApiError
                (jsOr j.message (jsOr j.errorString
                  ("Request failed: " ++ toString status)))
                (some status) j.details (some (.obj j)))
        | .parsed .nonObj =>
            if isOkStatus status then .ok (.data .nonObj)
            else
              .error (createApiError
                ("Request failed: " ++ toString status)
                (some status) none (some .nonObj))

/-- The default headers of `handleRequest`. -/
def defaultHeaders : List (String × String) :=
  [("Content-Type", "application/json"), ("Accept", "application/json")]

/-- `getAuthHeaders` of the source: an empty token yields no headers (a
warning is logged, nothing is thrown); a non-empty token yields the
`Authorization: Bearer <token>` header. -/
def getAuthHeaders (token : String) : List (String × String) :=
  if token = "" then []
  else [("Authorization", "Bearer " ++ token)]

/-- The value of header `k` on the issued request after the spread
`{...defaultHeaders, ...options.headers}`: caller headers win over the
defaults. -/
def issuedHeaderValue (optHeaders : List (String × String)) (k : String) :
    Option String :=
  match optHeaders.lookup k with
  | some v => some v
  | none => defaultHeaders.lookup k

/-- `getFavoriteSongs` of the source up to the point a request is issued:
an empty token is rejected with a canonical API error (status 401) before
any request; otherwise the request is issued with `getAuthHeaders token`
as the caller headers. -/
def getFavoriteSongsIssue (token : String) :
    Except ApiError (List (String × String)) :=
  if token = "" then
    .error (createApiError "Authentication token is required." (some 401)
      none none)
  else .ok (getAuthHeaders token)

/-! ## Theorems -/

/-- Every error `handleRequest` produces is a `createApiError`: its
`error` flag is `true` and its `errorString` equals its `message`. -/
theorem handleRequest_error_shape (o : Outcome) (e : ApiError)
    (h : handleRequest o = .error e) :
    e.error = true ∧ e.errorString = e.message := by
  cases o with
  | networkFailure msg stack =>
      unfold handleRequest at h
      injection h with h
      subst h
      exact ⟨rfl, rfl⟩
  | response status statusText body =>
      rcases body with v | raw
      · rcases v with j | _ | _ <;>
          simp only [handleRequest] at h <;>
          repeat' split at h
        all_goals
          first
            | exact (Except.noConfusion h)
            | (injection h with h; subst h; exact ⟨rfl, rfl⟩)
      · simp only [handleRequest] at h
        repeat' split at h
        all_goals
          first
            | exact (Except.noConfusion h)
            | (injection h with h; subst h; exact ⟨rfl, rfl⟩)

/-- C2: for every transport outcome — transport failure, or any response
(any status, any body: valid-JSON error, valid-JSON success, empty,
non-JSON text) — `handleRequest` produces exactly one of a success
payload or a rejection carrying a canonical API error (`error` flag true,
`errorString` present and equal to the message); no other failure shape
escapes. -/
theorem C2_error_normalization_totality (o : Outcome) :
    (∃ p, handleRequest o = .ok p) ∨
    (∃ e, handleRequest o = .error e ∧ e.error = true ∧
      e.errorString = e.message) := by
  rcases hE : handleRequest o with e | p
  · right
    exact ⟨e, rfl, handleRequest_error_shape o e hE⟩
  · left
    exact ⟨p, rfl⟩

/-- C5: for every response (other than the 204 short-circuit, which never
reaches the body checks) whose body parses as an object with the error
flag `=== true` — any status, 2xx included — `handleRequest` rejects with
a canonical API error whose message is the body's `errorString` (falling
back to `API Error: <status>` when absent or empty), whose details are
the body's `details`, and which carries the full parsed body. -/
theorem C5_error_flag_rejection (status : Nat) (statusText : String)
    (j : JsonObj) (h204 : status ≠ 204) (herr : j.error = some true) :
    ∃ e, handleRequest (.response status statusText (.parsed (.obj j))) =
        .error e ∧
      e.error = true ∧
      e.message = jsOr j.errorString ("API Error: " ++ toString status) ∧
      e.errorString = e.message ∧
      e.details = j.details ∧
      e.apiResponse = some (.obj j) := by
  refine ⟨createApiError (jsOr j.errorString ("API Error: " ++ toString status))
    (some status) j.details (some (.obj j)), ?_, rfl, rfl, rfl, rfl, rfl⟩
  simp [handleRequest, h204, herr]

/-- Witness for C5 at status 403 with an explicit error body. -/
theorem C5_error_flag_rejection_witness :
    ∃ e, handleRequest (.response 403 "Forbidden"
        (.parsed (.obj ⟨some true, some "Invalid credentials", none,
          some "d"⟩))) = .error e ∧
      e.error = true ∧
      e.message = jsOr (some "Invalid credentials")
        ("API Error: " ++ toString 403) ∧
      e.errorString = e.message ∧
      e.details = some "d" ∧
      e.apiResponse = some (.obj ⟨some true, some "Invalid credentials",
        none, some "d"⟩) :=
  C5_error_flag_rejection 403 "Forbidden"
    ⟨some true, some "Invalid credentials", none, some "d"⟩
    (by decide) rfl

/-- C6: for every response (other than the 204 short-circuit) whose body
fails to parse as JSON: on a failure status the operation rejects with a
canonical API error whose message is derived from the status text (or the
raw body text when the status text is empty) and which has no structured
details; on a success status the raw text is returned verbatim as the
payload. -/
theorem C6_unparsable_body (status : Nat) (statusText raw : String)
    (h204 : status ≠ 204) :
    (isOkStatus status = false →
      handleRequest (.response status statusText (.unparsable raw)) =
        .error (createApiError
          ("Request failed: " ++ toString status ++ " "
            ++ jsOrStr statusText raw)
          (some status) none none)) ∧
    (isOkStatus status = true →
      handleRequest (.response status statusText (.unparsable raw)) =
        .ok (.text raw)) := by
  constructor
  · intro hfail
    simp [handleRequest, h204, hfail]
  · intro hok
    simp [handleRequest, h204, hok]

/-- Witness for C6 at status 500 (failure, derived message, no details)
and status 200 (success, verbatim text). -/
theorem C6_unparsable_body_witness :
    handleRequest (.response 500 "Internal Server Error"
        (.unparsable "<html>oops</html>")) =
      .error (createApiError
        ("Request failed: " ++ toString 500 ++ " "
          ++ jsOrStr "Internal Server Error" "<html>oops</html>")
        (some 500) none none) ∧
    handleRequest (.response 200 "OK" (.unparsable "healthy")) =
      .ok (.text "healthy") :=
  ⟨(C6_unparsable_body 500 "Internal Server Error" "<html>oops</html>"
      (by decide)).1 (by decide),
    (C6_unparsable_body 200 "OK" "healthy" (by decide)).2 (by decide)⟩

/-- C3 counterexample: with an empty token, `getFavoriteSongs` does not
issue the request — it rejects with a canonical API error (status 401)
before any transport call, contradicting "the request is still issued
... and no exception is raised". -/
theorem C3_counterexample :
    getFavoriteSongsIssue "" =
      .error (createApiError "Authentication token is required." (some 401)
        none none) := by
  rfl

/-- C3 (amended): given a non-empty token, the authenticated request is
issued and its headers carry `Authorization: Bearer <token>` exactly;
given an empty token, `getAuthHeaders` itself returns no headers without
throwing (it only logs a warning), but the authenticated endpoint
operations reject the empty token with a canonical API error (status 401)
before issuing any request. -/
theorem C3_auth_header_injection (token : String) :
    (token ≠ "" →
      getFavoriteSongsIssue token = .ok (getAuthHeaders token) ∧
      issuedHeaderValue (getAuthHeaders token) "Authorization" =
        some ("Bearer " ++ token)) ∧
    (token = "" →
      getAuthHeaders token = [] ∧
      issuedHeaderValue (getAuthHeaders token) "Authorization" = none ∧
      ∃ e, getFavoriteSongsIssue token = .error e ∧ e.error = true ∧
        e.status = some 401) := by
  constructor
  · intro hne
    refine ⟨?_, ?_⟩
    · simp [getFavoriteSongsIssue, hne]
    · simp [getAuthHeaders, issuedHeaderValue, hne, List.lookup]
  · intro heq
    subst heq
    refine ⟨rfl, rfl, ⟨_, rfl, rfl, rfl⟩⟩

/-- Witness for C3 at the non-empty token `"tok"` and at the empty
token. -/
theorem C3_auth_header_injection_witness :
    (getFavoriteSongsIssue "tok" = .ok (getAuthHeaders "tok") ∧
      issuedHeaderValue (getAuthHeaders "tok") "Authorization" =
        some ("Bearer " ++ "tok")) ∧
    (getAuthHeaders "" = [] ∧
      issuedHeaderValue (getAuthHeaders "") "Authorization" = none ∧
      ∃ e, getFavoriteSongsIssue "" = .error e ∧ e.error = true ∧
        e.status = some 401) :=
  ⟨(C3_auth_header_injection "tok").1 (by decide),
    (C3_auth_header_injection "").2 rfl⟩

/-- C9: the storage adapter operations never propagate an underlying
storage failure: a failing read yields `null` (for the token and for the
user), a failing write is a no-op, and a failing removal is a no-op; the
caller always receives a plain value, never an exception. -/
theorem C9_adapter_swallows_failures (s : Storage) (token : String)
    (u : UserObj) :
    (s.getFails = true →
      getAuthToken s = none ∧ (getUserFromStorage s).1 = none) ∧
    (s.setFails = true →
      setAuthToken s token = s ∧ setUserInStorage s u = s) ∧
    (s.removeFails = true →
      removeAuthToken s = s ∧ removeUserFromStorage s = s) := by
  refine ⟨fun hg => ⟨?_, ?_⟩, fun hs => ⟨?_, ?_⟩, fun hr => ⟨?_, ?_⟩⟩
  · simp [getAuthToken, rawGetToken, hg]
  · simp [getUserFromStorage, rawGetUser, hg]
  · simp [setAuthToken, rawSetToken, hs]
  · simp [setUserInStorage, rawSetUser, hs]
  · simp [removeAuthToken, rawRemoveToken, hr]
  · simp [removeUserFromStorage, rawRemoveUser, hr]

/-- Witness for C9 on a storage whose every underlying operation throws. -/
theorem C9_adapter_swallows_failures_witness :
    getAuthToken ⟨some "abc", none, true, true, true⟩ = none ∧
    setAuthToken ⟨some "abc", none, true, true, true⟩ "zzz" =
      ⟨some "abc", none, true, true, true⟩ ∧
    removeAuthToken ⟨some "abc", none, true, true, true⟩ =
      ⟨some "abc", none, true, true, true⟩ :=
  ⟨((C9_adapter_swallows_failures ⟨some "abc", none, true, true, true⟩
      "zzz" ⟨none, none, none, none, none, none⟩).1 rfl).1,
    ((C9_adapter_swallows_failures ⟨some "abc", none, true, true, true⟩
      "zzz" ⟨none, none, none, none, none, none⟩).2.1 rfl).1,
    ((C9_adapter_swallows_failures ⟨some "abc", none, true, true, true⟩
      "zzz" ⟨none, none, none, none, none, none⟩).2.2 rfl).1⟩

/-- C1 counterexample: initializing with storage holding token `"abc"`
and no profile record ends `Unauthenticated`, but the token key is NOT
removed from storage — it still holds `"abc"` afterwards. -/
theorem C1_counterexample :
    (initializeAuth ⟨some "abc", none, false, false, false⟩).1 =
      ⟨none, none⟩ ∧
    (initializeAuth ⟨some "abc", none, false, false, false⟩).2.tokenSlot =
      some "abc" := by
  decide

/-- C1 (amended): every Initialize from partial storage ends
`Unauthenticated`, but the cleanup differs by case: with a token and no
profile record, storage is left untouched (the token key survives); with
a profile entry failing the store-level check, only the user key is
removed by the self-healing read; only when a profile record is read back
(truthy email) together with a truthy token yet fails the provider
predicate (`id && email && patronId`) are both keys cleared. -/
theorem C1_initialize_partial_storage (s : Storage)
    (hg : s.getFails = false) (hr : s.removeFails = false) :
    (s.userSlot = none → initializeAuth s = (⟨none, none⟩, s)) ∧
    (∀ e, s.userSlot = some e → entryInvalid e = true →
      initializeAuth s = (⟨none, none⟩, { s with userSlot := none })) ∧
    (∀ u t, s.userSlot = some (.userJson u) → truthyStr u.email = true →
      s.tokenSlot = some t → t ≠ "" →
      (truthyNum u.id && truthyNum u.patronId) = false →
      initializeAuth s =
        (⟨none, none⟩, { s with tokenSlot := none, userSlot := none })) := by
  refine ⟨?_, ?_, ?_⟩
  · intro hu
    simp [initializeAuth, getUserFromStorage, rawGetUser, hg, hu]
  · intro e hu hinv
    cases e with
    | userJson u =>
        have hem : truthyStr u.email = false := by
          simpa [entryInvalid] using hinv
        simp [initializeAuth, getUserFromStorage, rawGetUser,
          removeUserFromStorage, rawRemoveUser, hg, hr, hu, hem]
    | otherJson =>
        simp [initializeAuth, getUserFromStorage, rawGetUser,
          removeUserFromStorage, rawRemoveUser, hg, hr, hu]
    | malformed raw =>
        simp [initializeAuth, getUserFromStorage, rawGetUser,
          removeUserFromStorage, rawRemoveUser, hg, hr, hu]
  · intro u t hu hem ht htne hprov
    have hgu : getUserFromStorage s = (some u, s) := by
      simp [getUserFromStorage, rawGetUser, hg, hu, hem]
    have htr : truthyStr (getAuthToken s) = true := by
      simp [getAuthToken, rawGetToken, hg, ht, truthyStr, htne]
    have hra : removeAuthToken s = { s with tokenSlot := none } := by
      simp [removeAuthToken, rawRemoveToken, hr]
    have hru : removeUserFromStorage { s with tokenSlot := none } =
        { s with tokenSlot := none, userSlot := none } := by
      simp [removeUserFromStorage, rawRemoveUser, hr]
    simp [initializeAuth, hgu, htr, hem, hprov, hra, hru]

/-- Witness for C1 (amended) at storage holding token `"abc"` and no
profile record. -/
theorem C1_initialize_partial_storage_witness :
    initializeAuth ⟨some "abc", none, false, false, false⟩ =
      (⟨none, none⟩, ⟨some "abc", none, false, false, false⟩) :=
  (C1_initialize_partial_storage ⟨some "abc", none, false, false, false⟩
    rfl rfl).1 rfl

/-- C4 counterexample: a stored profile carrying an email but no `id`
fails the §3 validity predicate, yet `getUserFromStorage` returns it (its
check looks only at `user.email`). -/
theorem C4_counterexample :
    (getUserFromStorage ⟨none,
        some (.userJson ⟨none, none, none, none, some "a@b.com", none⟩),
        false, false, false⟩).1 =
      some ⟨none, none, none, none, some "a@b.com", none⟩ ∧
    specValidProfile ⟨none, none, none, none, some "a@b.com", none⟩ =
      false := by
  decide

/-- C4 (amended): `loadUser` never returns a profile with a falsy email —
that is its own validity check — and it leaves storage untouched when it
does return one; any stored entry failing that check (malformed,
non-object, or email missing/empty) is treated as "no profile": `null` is
returned and the entry is removed.  A profile lacking an `id` but
carrying an email is, however, returned as-is: the §3 predicate's
identifier half is enforced only later, by the provider. -/
theorem C4_loadUser_validity (s : Storage) :
    (∀ u s', getUserFromStorage s = (some u, s') →
      truthyStr u.email = true ∧ s' = s) ∧
    (s.getFails = false → s.removeFails = false →
      ∀ e, s.userSlot = some e → entryInvalid e = true →
      getUserFromStorage s = (none, { s with userSlot := none })) := by
  constructor
  · intro u s' h
    by_cases hg : s.getFails = true
    · simp [getUserFromStorage, rawGetUser, hg] at h
    · rw [Bool.not_eq_true] at hg
      rcases hu : s.userSlot with _ | e
      · simp [getUserFromStorage, rawGetUser, hg, hu] at h
      · cases e with
        | userJson u' =>
            by_cases hem : truthyStr u'.email = true
            · have h' := h
              simp [getUserFromStorage, rawGetUser, hg, hu, hem] at h'
              exact ⟨h'.1 ▸ hem, h'.2.symm⟩
            · simp [getUserFromStorage, rawGetUser, hg, hu, hem] at h
        | otherJson =>
            simp [getUserFromStorage, rawGetUser, hg, hu] at h
        | malformed raw =>
            simp [getUserFromStorage, rawGetUser, hg, hu] at h
  · intro hg hr e hu hinv
    cases e with
    | userJson u =>
        have hem : truthyStr u.email = false := by
          simpa [entryInvalid] using hinv
        simp [getUserFromStorage, rawGetUser, removeUserFromStorage,
          rawRemoveUser, hg, hr, hu, hem]
    | otherJson =>
        simp [getUserFromStorage, rawGetUser, removeUserFromStorage,
          rawRemoveUser, hg, hr, hu]
    | malformed raw =>
        simp [getUserFromStorage, rawGetUser, removeUserFromStorage,
          rawRemoveUser, hg, hr, hu]

/-- Witness for C4 (amended) on a malformed stored entry. -/
theorem C4_loadUser_validity_witness :
    getUserFromStorage ⟨some "t", some (.malformed "not-json"),
        false, false, false⟩ =
      (none, ⟨some "t", none, false, false, false⟩) :=
  (C4_loadUser_validity ⟨some "t", some (.malformed "not-json"),
    false, false, false⟩).2 rfl rfl (.malformed "not-json") rfl rfl

/-- C7 counterexample: an incomplete profile entry — an email but no
`id`, so it fails the §3 validity predicate — is NOT healed: the first
`loadUser()` returns it rather than `null` (only email-less or malformed
entries trigger the self-healing removal). -/
theorem C7_counterexample :
    specValidProfile ⟨none, some 7, some "A", some "B", some "x@y.z",
      none⟩ = false ∧
    (getUserFromStorage ⟨some "tok",
        some (.userJson ⟨none, some 7, some "A", some "B", some "x@y.z",
          none⟩), false, false, false⟩).1 =
      some ⟨none, some 7, some "A", some "B", some "x@y.z", none⟩ := by
  decide

/-- C7 (amended): for every stored profile entry failing `loadUser`'s own
check (malformed text, a non-object value, or a missing/empty email), the
first `loadUser()` returns `null` and removes the entry, and a second
`loadUser()` on the resulting storage also returns `null` without
changing anything — the self-healing read is idempotent.  An entry that
merely lacks an `id` is not healed: it is returned as a profile. -/
theorem C7_selfheal_idempotent (s : Storage) (e : StoredText)
    (hg : s.getFails = false) (hr : s.removeFails = false)
    (hu : s.userSlot = some e) (hinv : entryInvalid e = true) :
    getUserFromStorage s = (none, { s with userSlot := none }) ∧
    getUserFromStorage { s with userSlot := none } =
      (none, { s with userSlot := none }) := by
  constructor
  · cases e with
    | userJson u =>
        have hem : truthyStr u.email = false := by
          simpa [entryInvalid] using hinv
        simp [getUserFromStorage, rawGetUser, removeUserFromStorage,
          rawRemoveUser, hg, hr, hu, hem]
    | otherJson =>
        simp [getUserFromStorage, rawGetUser, removeUserFromStorage,
          rawRemoveUser, hg, hr, hu]
    | malformed raw =>
        simp [getUserFromStorage, rawGetUser, removeUserFromStorage,
          rawRemoveUser, hg, hr, hu]
  · simp [getUserFromStorage, rawGetUser, hg]

/-- Witness for C7 (amended) on a malformed entry. -/
theorem C7_selfheal_idempotent_witness :
    getUserFromStorage ⟨some "tok", some (.malformed "garbage"),
        false, false, false⟩ =
      (none, ⟨some "tok", none, false, false, false⟩) ∧
    getUserFromStorage ⟨some "tok", none, false, false, false⟩ =
      (none, ⟨some "tok", none, false, false, false⟩) :=
  C7_selfheal_idempotent ⟨some "tok", some (.malformed "garbage"),
    false, false, false⟩ (.malformed "garbage") rfl rfl rfl rfl

/-- C8 counterexample: the profile `{id: 1, patronId: 0, email:
"a@b.com"}` passes the §3 validity predicate (non-empty id and email),
yet `Login` followed by a fresh `Initialize` ends `Unauthenticated`,
because the provider's own check also requires a truthy `patronId`. -/
theorem C8_counterexample :
    specValidProfile ⟨some 1, some 0, some "A", some "B", some "a@b.com",
      none⟩ = true ∧
    (initializeAuth (login ⟨none, none, false, false, false⟩ "abc"
        ⟨some 1, some 0, some "A", some "B", some "a@b.com",
          none⟩).2).1 = ⟨none, none⟩ := by
  decide

/-- C8 (amended): for every non-empty token and every profile whose `id`,
`email` AND `patronId` are all truthy, `Login(token, profile)` followed
by a fresh `Initialize` yields the authenticated state holding the same
token and the same profile, with storage unchanged by the re-read —
provided the storage writes and reads succeed. -/
theorem C8_auth_round_trip (s : Storage) (t : String) (u : UserObj)
    (ht : t ≠ "") (hid : truthyNum u.id = true)
    (hem : truthyStr u.email = true) (hpat : truthyNum u.patronId = true)
    (hset : s.setFails = false) (hget : s.getFails = false) :
    initializeAuth (login s t u).2 =
      (⟨some t, some u⟩, (login s t u).2) := by
  have hL : (login s t u).2 =
      { s with tokenSlot := some t, userSlot := some (.userJson u) } := by
    simp [login, setAuthToken, rawSetToken, setUserInStorage, rawSetUser,
      hset]
  rw [hL]
  have htr : truthyStr (some t) = true := by simp [truthyStr, ht]
  simp [initializeAuth, getUserFromStorage, rawGetUser, getAuthToken,
    rawGetToken, hget, hem, htr, hid, hpat]

/-- Witness for C8 (amended) at token `"abc"` and a fully-truthy
profile. -/
theorem C8_auth_round_trip_witness :
    initializeAuth (login ⟨none, none, false, false, false⟩ "abc"
        ⟨some 1, some 7, some "A", some "B", some "a@b.com", none⟩).2 =
      (⟨some "abc", some ⟨some 1, some 7, some "A", some "B",
          some "a@b.com", none⟩⟩,
        (login ⟨none, none, false, false, false⟩ "abc"
          ⟨some 1, some 7, some "A", some "B", some "a@b.com",
            none⟩).2) :=
  C8_auth_round_trip ⟨none, none, false, false, false⟩ "abc"
    ⟨some 1, some 7, some "A", some "B", some "a@b.com", none⟩
    (by decide) (by decide) (by decide) (by decide) rfl rfl

/-- The in-memory state Initialize settles into is either fully cleared
or fully populated with a non-empty token. -/
theorem initializeAuth_state_shape (s : Storage) :
    (initializeAuth s).1 = ⟨none, none⟩ ∨
    ∃ t u, (initializeAuth s).1 = ⟨some t, some u⟩ ∧ t ≠ "" := by
  rcases hgu : getUserFromStorage s with ⟨ou, s1⟩
  cases ou with
  | none => left; simp [initializeAuth, hgu]
  | some u' =>
      rcases hga : getAuthToken s with _ | t'
      · left
        have htr : truthyStr (none : Option String) = false := rfl
        simp [initializeAuth, hgu, hga, htr]
      · by_cases htne : t' = ""
        · left
          subst htne
          have htr : truthyStr (some "") = false := rfl
          simp [initializeAuth, hgu, hga, htr]
        · have htr : truthyStr (some t') = true := by
            simp [truthyStr, htne]
          by_cases hck : (truthyNum u'.id && truthyStr u'.email &&
              truthyNum u'.patronId) = true
          · right
            exact ⟨t', u',
              by simp [initializeAuth, hgu, hga, htr, hck], htne⟩
          · left
            simp [initializeAuth, hgu, hga, htr, hck]

/-- C10 counterexample: `login` with the empty-string token leaves both
the in-memory token and the user non-null, yet `isAuthenticated` is
`false` (`!!token` is false for `""`) — the flag is not "true exactly
when both are non-null". -/
theorem C10_counterexample :
    (login ⟨none, none, false, false, false⟩ ""
        ⟨some 1, some 1, some "A", some "B", some "a@b.com",
          none⟩).1.token.isSome = true ∧
    (login ⟨none, none, false, false, false⟩ ""
        ⟨some 1, some 1, some "A", some "B", some "a@b.com",
          none⟩).1.user.isSome = true ∧
    isAuthenticated (login ⟨none, none, false, false, false⟩ ""
        ⟨some 1, some 1, some "A", some "B", some "a@b.com",
          none⟩).1 = false := by
  decide

/-- C10 (amended): after initialization and after every login or logout,
the in-memory token is non-null iff the user profile is non-null; the
flag `isAuthenticated` is true exactly when the token is non-null AND
non-empty and the user is non-null.  After Initialize (whose restored
token is always non-empty) and after Logout this coincides with "both
non-null", but a Login with an empty-string token yields both fields
non-null with the flag false. -/
theorem C10_token_user_invariant (s : Storage) (t : String) (u : UserObj) :
    ((initializeAuth s).1.token.isSome =
      (initializeAuth s).1.user.isSome) ∧
    (isAuthenticated (initializeAuth s).1 =
      (initializeAuth s).1.token.isSome) ∧
    ((login s t u).1 = ⟨some t, some u⟩) ∧
    (isAuthenticated (login s t u).1 = decide (t ≠ "")) ∧
    ((logout s).1 = ⟨none, none⟩) ∧
    (isAuthenticated (logout s).1 = false) := by
  refine ⟨?_, ?_, rfl, ?_, rfl, rfl⟩
  · rcases initializeAuth_state_shape s with h | ⟨t', u', h, _⟩ <;>
      simp [h]
  · rcases initializeAuth_state_shape s with h | ⟨t', u', h, htne⟩
    · simp [h, isAuthenticated, truthyStr]
    · simp [h, isAuthenticated, truthyStr, htne]
  · simp [isAuthenticated, login, truthyStr]
